import Mathlib

/-!
# moveit_core: robot-state message conversions and the planar joint model

A shallow embedding of

* `robot_state/src/conversions.cpp` (conversion between `RobotState` objects and the
  `JointState` / `MultiDOFJointState` / `RobotState` messages), and
* `robot_model/include/moveit/robot_model/planar_joint_model.h` (the inline accessors of
  `PlanarJointModel`; `normalizeRotation`, `computeTransform` and `computeJointStateValues`,
  which the header only declares, are modelled from the specification).

Conventions of the embedding.

* A C++ function that mutates an argument passed by reference takes the old value and
  returns the new one; a function returning `bool` and mutating the state returns a pair.
* `std::vector<T>` is `List T`, `push_back` appends at the end, `size()` is `List.length`.
* `std::set<std::string>` is `Finset String`.
* A nullable pointer is an `Option`.
* Classes whose definition is outside the two translated files (`RobotModel`, `JointModel`,
  `RobotState`, `AttachedBody`, `Transforms`, the Eigen and message types) appear through
  the member functions the translated code calls: value types are fields of `Types`,
  const accessors are fields of a structure, and member functions of `RobotState` are the
  fields of `Methods`.
* Logging calls have no effect on any value and are omitted.
-/

set_option autoImplicit false

/-- The value types the translated code only moves around and never inspects. -/
structure Types where
  /-- The C++ type `double`. -/
  Double : Type
  /-- The type `Eigen::Affine3d`. -/
  Affine3d : Type
  /-- The message `geometry_msgs::Transform`. -/
  TransformMsg : Type
  /-- The message `geometry_msgs::Pose`. -/
  PoseMsg : Type
  /-- The message `shape_msgs::SolidPrimitive`. -/
  SolidPrimitive : Type
  /-- The message `shape_msgs::Mesh`. -/
  Mesh : Type
  /-- The message `shape_msgs::Plane`. -/
  Plane : Type
  /-- The class `shapes::Shape`. -/
  Shape : Type
  /-- The message `trajectory_msgs::JointTrajectory` (type of `detach_posture`). -/
  Posture : Type
  /-- The class `LinkModel`. -/
  LinkModel : Type
  /-- The mutable members of a `RobotState` object. -/
  StateData : Type

namespace std_msgs

/-- The message `std_msgs::Header`. -/
structure Header where
  seq : Nat := 0
  stamp : Nat × Nat := (0, 0)
  frame_id : String := ""

end std_msgs

namespace sensor_msgs

/-- The message `sensor_msgs::JointState`; `{}` is the default-constructed message. -/
structure JointState (τ : Types) where
  header : std_msgs.Header := {}
  name : List String := []
  position : List τ.Double := []
  velocity : List τ.Double := []
  effort : List τ.Double := []

/-- The message `sensor_msgs::MultiDOFJointState`, with the members the code accesses. -/
structure MultiDOFJointState (τ : Types) where
  header : std_msgs.Header := {}
  joint_names : List String := []
  transforms : List τ.TransformMsg := []

end sensor_msgs

namespace shapes

/-- The variant `shapes::ShapeMsg`. -/
inductive ShapeMsg (τ : Types) where
  | solidPrimitive (m : τ.SolidPrimitive)
  | mesh (m : τ.Mesh)
  | plane (m : τ.Plane)

end shapes

namespace moveit_msgs

/-- The message `moveit_msgs::CollisionObject`. -/
structure CollisionObject (τ : Types) where
  header : std_msgs.Header := {}
  id : String := ""
  primitives : List τ.SolidPrimitive := []
  primitive_poses : List τ.PoseMsg := []
  meshes : List τ.Mesh := []
  mesh_poses : List τ.PoseMsg := []
  planes : List τ.Plane := []
  plane_poses : List τ.PoseMsg := []
  operation : Int := 0

/-- The constant `moveit_msgs::CollisionObject::ADD`. -/
def CollisionObject.ADD : Int := 0

/-- The constant `moveit_msgs::CollisionObject::REMOVE`. -/
def CollisionObject.REMOVE : Int := 1

/-- The message `moveit_msgs::AttachedCollisionObject`. -/
structure AttachedCollisionObject (τ : Types) where
  link_name : String
  object : CollisionObject τ
  touch_links : List String
  detach_posture : τ.Posture

/-- The message `moveit_msgs::RobotState`. -/
structure RobotState (τ : Types) where
  joint_state : sensor_msgs.JointState τ
  multi_dof_joint_state : sensor_msgs.MultiDOFJointState τ
  attached_collision_objects : List (AttachedCollisionObject τ)
  is_diff : Bool

end moveit_msgs

namespace Eigen

/-- Modelled from the spec: the Rigid Transform, "a 3D pose (rotation + translation)", which
the code holds in an `Eigen::Affine3d` (a type of the Eigen library, not among the sources):
the 3×3 linear part and the translation vector, over the real numbers. -/
structure Affine3d where
  linear : Matrix (Fin 3) (Fin 3) ℝ
  translation : Fin 3 → ℝ

end Eigen

namespace robot_model

/-- The members of `PlanarJointModel`: the `JointModel` base sub-object (declared in
`joint_model.h`, of type `Base` here) and the private member `angular_distance_weight_`. -/
structure PlanarJointModel (Base D : Type) where
  toJointModel : Base
  angular_distance_weight_ : D

namespace PlanarJointModel

variable {Base D : Type}

/-- The member function `double getAngularDistanceWeight() const`. -/
def getAngularDistanceWeight (self : PlanarJointModel Base D) : D :=
  self.angular_distance_weight_

/-- The member function `void setAngularDistanceWeight(double weight)`. -/
def setAngularDistanceWeight (self : PlanarJointModel Base D) (weight : D) :
    PlanarJointModel Base D :=
  { self with angular_distance_weight_ := weight }

/-- Modelled from the spec: the modular reduction used by `normalizeRotation` (the body of
the function is in `planar_joint_model.cpp`, which is not among the sources). The quotient
`x / y` is rounded towards zero and the multiple of `y` is subtracted, as the C function
`fmod` does; the arithmetic is exact, in an ordered field `K` (the rationals where the
function is evaluated, the reals next to the transform codec). -/
def fmod {K : Type} [LinearOrderedField K] [FloorRing K] (x y : K) : K :=
  x - y * (if 0 ≤ x / y then ⌊x / y⌋ else ⌈x / y⌉)

/-- Modelled from the spec: the member function `bool normalizeRotation(std::vector<double>
&values) const`, of which the sources hold the declaration and its comment ("Make the yaw
component of a state's value vector be in the range [-Pi, Pi]", "Return true if a change is
actually made"); the spec says that it "maps any yaw value into `[-π, π]` by modular
reduction" and "reports whether it changed the value". Values are exact numbers of an
ordered field `K`, `pi` is the constant the code uses for π, and the yaw is entry 2 of the
value vector. -/
def normalizeRotation {K : Type} [LinearOrderedField K] [FloorRing K] (pi : K)
    (values : List K) : Bool × List K :=
  let v := values.getD 2 0
  if -pi ≤ v ∧ v ≤ pi then
    (false, values)
  else
    let v := fmod v (2 * pi)
    let v :=
      if v < -pi then v + 2 * pi
      else if v > pi then v - 2 * pi
      else v
    (true, values.set 2 v)

/-- Modelled from the spec: the member function `computeTransform(joint_values, transf)`, of
which the sources hold the declaration only. The spec: "pure function; builds a fresh Rigid
Transform from `(x, y, yaw)` — translation `(x, y, 0)` composed with rotation by `yaw` about
the out-of-plane axis. No side effects, no dependency on prior state." The result is the
value left in the output parameter `transf`. -/
noncomputable def computeTransform (joint_values : List ℝ) : Eigen.Affine3d :=
  let x := joint_values.getD 0 0
  let y := joint_values.getD 1 0
  let yaw := joint_values.getD 2 0
  { linear := !![Real.cos yaw, -Real.sin yaw, 0; Real.sin yaw, Real.cos yaw, 0; 0, 0, 1]
    translation := ![x, y, 0] }

/-- Modelled from the spec: the member function `computeJointStateValues(transf,
joint_values)`, of which the sources hold the declaration only. The spec: "inverse mapping;
extracts `(x, y, yaw)` from a Rigid Transform's translation and rotation, discarding any
out-of-plane component". The yaw is the angle, in `(-π, π]`, of the image of the x axis in
the plane (`atan2` of the entries `(1, 0)` and `(0, 0)` of the rotation); the z translation
and the other entries of the rotation are not read. The result is the value left in the
output parameter `joint_values`. -/
noncomputable def computeJointStateValues (transf : Eigen.Affine3d) : List ℝ :=
  [transf.translation 0, transf.translation 1,
    Complex.arg ⟨transf.linear 0 0, transf.linear 1 0⟩]

end PlanarJointModel

end robot_model

namespace moveit.core

/-- The const interface of a `JointModel` that the conversions use. -/
structure JointModel (τ : Types) where
  getName : String
  getVariableNames : List String
  getFirstVariableIndex : Nat
  /-- The virtual `computeTransform(joint_values, transf)`; `transf` is passed by reference,
  so the function maps its old value to its new one. -/
  computeTransform : List τ.Double → τ.Affine3d → τ.Affine3d

/-- The const interface of a `RobotModel` that the conversions use. `getJointModel` and
`getLinkModel` return a null pointer (`none`) for an unknown name. -/
structure RobotModel (τ : Types) where
  getModelFrame : String
  hasJointModel : String → Bool
  getJointModel : String → Option (JointModel τ)
  getLinkModel : String → Option τ.LinkModel
  /-- The result `getMissingVariableNames(variables, missing_variables)` leaves in
  `missing_variables`. -/
  getMissingVariableNames : List String → List String
  getMultiDOFJointModels : List (JointModel τ)
  getSingleDOFJointModels : List (JointModel τ)

/-- The const interface of an `AttachedBody`. -/
structure AttachedBody (τ : Types) where
  getName : String
  getAttachedLinkName : String
  getDetachPosture : τ.Posture
  getTouchLinks : Finset String
  getShapes : List τ.Shape
  getFixedTransforms : List τ.Affine3d

/-- A `Transforms` object, seen through the two members the conversions call: it is the
lookup of the transform registered for a frame, if any. A frame can be transformed exactly
when a transform is registered for it. -/
structure Transforms (τ : Types) where
  transforms_ : String → Option τ.Affine3d

/-- The member `canTransform(from_frame)`. -/
def Transforms.canTransform {τ : Types} (tf : Transforms τ) (from_frame : String) : Bool :=
  (tf.transforms_ from_frame).isSome

/-- The member `getTransform(from_frame)`; `none` stands for the `std::runtime_error`
thrown for a frame that cannot be transformed. -/
def Transforms.getTransform {τ : Types} (tf : Transforms τ) (from_frame : String) :
    Option τ.Affine3d :=
  tf.transforms_ from_frame

/-- A `RobotState` object: the shared, immutable robot model it was built for and its
mutable members. -/
structure RobotState (τ : Types) where
  robot_model_ : RobotModel τ
  data : τ.StateData

/-- The library functions and the `RobotState` member functions called by the conversions.
A mutating member function returns the new mutable members of the state. -/
structure Methods (τ : Types) where
  /-- The call `Eigen::Affine3d::setIdentity()`. -/
  identity : τ.Affine3d
  /-- The product `a * b` of two `Eigen::Affine3d`. -/
  mul : τ.Affine3d → τ.Affine3d → τ.Affine3d
  /-- The call `Eigen::Affine3d::inverse()`. -/
  inverse : τ.Affine3d → τ.Affine3d
  transformMsgToEigen : τ.TransformMsg → τ.Affine3d
  transformEigenToMsg : τ.Affine3d → τ.TransformMsg
  poseMsgToEigen : τ.PoseMsg → τ.Affine3d
  poseEigenToMsg : τ.Affine3d → τ.PoseMsg
  /-- The overloads of `shapes::constructShapeFromMsg`; `none` is a null pointer. -/
  constructShapeFromMsg : shapes.ShapeMsg τ → Option τ.Shape
  /-- The call `shapes::constructMsgFromShape(shape, msg)`; `none` when it returns false. -/
  constructMsgFromShape : τ.Shape → Option (shapes.ShapeMsg τ)
  /-- The static `Transforms::sameFrame`. -/
  sameFrame : String → String → Bool
  /-- The default-constructed `trajectory_msgs::JointTrajectory`. -/
  defaultPosture : τ.Posture
  setVariableValues : RobotState τ → sensor_msgs.JointState τ → τ.StateData
  setJointPositions : RobotState τ → String → τ.Affine3d → τ.StateData
  clearAttachedBodies : RobotState τ → τ.StateData
  clearAttachedBody : RobotState τ → String → Bool × τ.StateData
  attachBody : RobotState τ → String → List τ.Shape → List τ.Affine3d → List String →
    String → τ.Posture → τ.StateData
  update : RobotState τ → τ.StateData
  knowsFrameTransform : RobotState τ → String → Bool
  getFrameTransform : RobotState τ → String → τ.Affine3d
  getGlobalLinkTransform : RobotState τ → τ.LinkModel → τ.Affine3d
  dirtyJointTransform : RobotState τ → JointModel τ → Bool
  getJointPositions : RobotState τ → JointModel τ → List τ.Double
  getJointTransform : RobotState τ → JointModel τ → τ.Affine3d
  getVariablePosition : RobotState τ → Nat → τ.Double
  getVariableVelocity : RobotState τ → Nat → τ.Double
  hasVelocities : RobotState τ → Bool
  getAttachedBodies : RobotState τ → List (AttachedBody τ)

namespace RobotState

variable {τ : Types}

/-- The member `getJointModel(joint)`, which asks the robot model. -/
def getJointModel (state : RobotState τ) (joint : String) : Option (JointModel τ) :=
  state.robot_model_.getJointModel joint

/-- The member `getLinkModel(link)`, which asks the robot model. -/
def getLinkModel (state : RobotState τ) (link : String) : Option τ.LinkModel :=
  state.robot_model_.getLinkModel link

/-- The call `state.setVariableValues(joint_state)`. -/
def setVariableValues (M : Methods τ) (state : RobotState τ)
    (joint_state : sensor_msgs.JointState τ) : RobotState τ :=
  { state with data := M.setVariableValues state joint_state }

/-- The call `state.setJointPositions(joint_name, transf)`. -/
def setJointPositions (M : Methods τ) (state : RobotState τ) (joint_name : String)
    (transf : τ.Affine3d) : RobotState τ :=
  { state with data := M.setJointPositions state joint_name transf }

/-- The call `state.clearAttachedBodies()`. -/
def clearAttachedBodies (M : Methods τ) (state : RobotState τ) : RobotState τ :=
  { state with data := M.clearAttachedBodies state }

/-- The call `state.clearAttachedBody(id)`. -/
def clearAttachedBody (M : Methods τ) (state : RobotState τ) (id : String) :
    Bool × RobotState τ :=
  ((M.clearAttachedBody state id).1, { state with data := (M.clearAttachedBody state id).2 })

/-- The call `state.attachBody(id, shapes, poses, touch_links, link_name, detach_posture)`. -/
def attachBody (M : Methods τ) (state : RobotState τ) (id : String) (shapes : List τ.Shape)
    (poses : List τ.Affine3d) (touch_links : List String) (link_name : String)
    (detach_posture : τ.Posture) : RobotState τ :=
  { state with
    data := M.attachBody state id shapes poses touch_links link_name detach_posture }

/-- The call `state.update()`. -/
def update (M : Methods τ) (state : RobotState τ) : RobotState τ :=
  { state with data := M.update state }

end RobotState

variable {τ : Types}

/-- The function `_jointStateToRobotState`; `missing` is the pointer argument (`none` for
`NULL`), returned with the set it points to after the call. -/
def _jointStateToRobotState (M : Methods τ) (joint_state : sensor_msgs.JointState τ)
    (state : RobotState τ) (missing : Option (Finset String)) :
    Bool × RobotState τ × Option (Finset String) :=
  if joint_state.name.length ≠ joint_state.position.length then
    (false, state, missing)
  else
    let state := state.setVariableValues M joint_state
    let missing :=
      match missing with
      | some _ =>
        let missing_variables := state.robot_model_.getMissingVariableNames joint_state.name
        -- missing->clear(), then one insert per missing variable
        some (missing_variables.foldl (fun missing v => insert v missing) ∅)
      | none => none
    (true, state, missing)

/-- The function `_multiDOFJointsToRobotState`. The local `inv_t` is `some` exactly when
`use_inv_t` is set. -/
def _multiDOFJointsToRobotState (M : Methods τ) (mjs : sensor_msgs.MultiDOFJointState τ)
    (state : RobotState τ) (tf : Option (Transforms τ)) : Bool × RobotState τ :=
  let nj := mjs.joint_names.length
  if nj ≠ mjs.transforms.length then
    (false, state)
  else
    let init : Bool × Option τ.Affine3d :=
      if 0 < nj ∧ ¬ M.sameFrame mjs.header.frame_id state.robot_model_.getModelFrame then
        match tf with
        | some tf =>
          match tf.getTransform mjs.header.frame_id with
          | some t2fixed_frame => (false, some (M.inverse t2fixed_frame))
          | none => (true, none)
        | none => (true, none)
      else (false, none)
    let inv_t := init.2
    let loop := (mjs.joint_names.zip mjs.transforms).foldl
      (fun (acc : Bool × RobotState τ) (entry : String × τ.TransformMsg) =>
        let joint_name := entry.1
        if ¬ acc.2.robot_model_.hasJointModel joint_name then
          (true, acc.2)
        else
          let transf := M.transformMsgToEigen entry.2
          let transf :=
            match inv_t with
            | some inv_t => M.mul transf inv_t
            | none => transf
          (acc.1, acc.2.setJointPositions M joint_name transf))
      (init.1, state)
    (!loop.1, loop.2)

/-- The function `_robotStateToMultiDOFJointState`. -/
def _robotStateToMultiDOFJointState (M : Methods τ) (state : RobotState τ)
    (mjs : sensor_msgs.MultiDOFJointState τ) : sensor_msgs.MultiDOFJointState τ :=
  let js := state.robot_model_.getMultiDOFJointModels
  let mjs := { mjs with joint_names := [] }
  let mjs := { mjs with transforms := [] }
  let mjs := js.foldl
    (fun (mjs : sensor_msgs.MultiDOFJointState τ) (j : JointModel τ) =>
      let p :=
        if M.dirtyJointTransform state j then
          let t := M.identity
          let t := j.computeTransform (M.getJointPositions state j) t
          M.transformEigenToMsg t
        else
          M.transformEigenToMsg (M.getJointTransform state j)
      let mjs := { mjs with joint_names := mjs.joint_names ++ [j.getName] }
      { mjs with transforms := mjs.transforms ++ [p] })
    mjs
  { mjs with header := { mjs.header with frame_id := state.robot_model_.getModelFrame } }

open moveit_msgs in
/-- The call `addToObject(sm, pose)` of a `ShapeVisitorAddToCollisionObject` built on `obj`:
the visitor appends the shape message and the pose to the lists of its kind. -/
def ShapeVisitorAddToCollisionObject.addToObject (obj : CollisionObject τ)
    (sm : shapes.ShapeMsg τ) (pose : τ.PoseMsg) : CollisionObject τ :=
  match sm with
  | .plane shape_msg =>
    let obj := { obj with planes := obj.planes ++ [shape_msg] }
    { obj with plane_poses := obj.plane_poses ++ [pose] }
  | .mesh shape_msg =>
    let obj := { obj with meshes := obj.meshes ++ [shape_msg] }
    { obj with mesh_poses := obj.mesh_poses ++ [pose] }
  | .solidPrimitive shape_msg =>
    let obj := { obj with primitives := obj.primitives ++ [shape_msg] }
    { obj with primitive_poses := obj.primitive_poses ++ [pose] }

open moveit_msgs in
/-- The function `_attachedBodyToMsg`. The set of touch links is traversed in increasing
order; shape `j` is paired with fixed transform `j`. -/
def _attachedBodyToMsg (M : Methods τ) (attached_body : AttachedBody τ)
    (aco : AttachedCollisionObject τ) : AttachedCollisionObject τ :=
  let aco := { aco with link_name := attached_body.getAttachedLinkName }
  let aco := { aco with detach_posture := attached_body.getDetachPosture }
  let touch_links := attached_body.getTouchLinks
  let aco := { aco with touch_links := [] }
  let aco := (touch_links.sort (· ≤ ·)).foldl
    (fun (aco : AttachedCollisionObject τ) (it : String) =>
      { aco with touch_links := aco.touch_links ++ [it] })
    aco
  let aco :=
    { aco with object := { aco.object with
        header := { aco.object.header with frame_id := aco.link_name } } }
  let aco := { aco with object := { aco.object with id := attached_body.getName } }
  let aco := { aco with object := { aco.object with operation := CollisionObject.ADD } }
  let ab_shapes := attached_body.getShapes
  let ab_tf := attached_body.getFixedTransforms
  let aco :=
    { aco with object := { aco.object with
        primitives := [], meshes := [], planes := [],
        primitive_poses := [], mesh_poses := [], plane_poses := [] } }
  (ab_shapes.zip ab_tf).foldl
    (fun (aco : AttachedCollisionObject τ) (entry : τ.Shape × τ.Affine3d) =>
      match M.constructMsgFromShape entry.1 with
      | some sm =>
        let p := M.poseEigenToMsg entry.2
        { aco with object := ShapeVisitorAddToCollisionObject.addToObject aco.object sm p }
      | none => aco)
    aco

/-- One of the three loops of `_msgToAttachedBody` that build `shapes` and `poses`: for
every message that yields a shape, the shape and the converted pose are appended. -/
def _msgToAttachedBody.collect {Msg : Type} (M : Methods τ) (wrap : Msg → shapes.ShapeMsg τ)
    (msgs : List Msg) (msg_poses : List τ.PoseMsg)
    (acc : List τ.Shape × List τ.Affine3d) : List τ.Shape × List τ.Affine3d :=
  (msgs.zip msg_poses).foldl
    (fun (acc : List τ.Shape × List τ.Affine3d) (entry : Msg × τ.PoseMsg) =>
      match M.constructShapeFromMsg (wrap entry.1) with
      | some s =>
        let p := M.poseMsgToEigen entry.2
        (acc.1 ++ [s], acc.2 ++ [p])
      | none => acc)
    acc

open moveit_msgs in
/-- The function `_msgToAttachedBody`. -/
def _msgToAttachedBody (M : Methods τ) (tf : Option (Transforms τ))
    (aco : AttachedCollisionObject τ) (state : RobotState τ) : RobotState τ :=
  if aco.object.operation = CollisionObject.ADD then
    if ¬ aco.object.primitives.isEmpty ∨ ¬ aco.object.meshes.isEmpty ∨
        ¬ aco.object.planes.isEmpty then
      if aco.object.primitives.length ≠ aco.object.primitive_poses.length then
        state
      else if aco.object.meshes.length ≠ aco.object.mesh_poses.length then
        state
      else if aco.object.planes.length ≠ aco.object.plane_poses.length then
        state
      else
        match state.getLinkModel aco.link_name with
        | some lm =>
          let acc : List τ.Shape × List τ.Affine3d := ([], [])
          let acc := _msgToAttachedBody.collect M shapes.ShapeMsg.solidPrimitive
            aco.object.primitives aco.object.primitive_poses acc
          let acc := _msgToAttachedBody.collect M shapes.ShapeMsg.mesh
            aco.object.meshes aco.object.mesh_poses acc
          let acc := _msgToAttachedBody.collect M shapes.ShapeMsg.plane
            aco.object.planes aco.object.plane_poses acc
          let shapes := acc.1
          let poses := acc.2
          -- transform poses to link frame
          let poses :=
            if ¬ M.sameFrame aco.object.header.frame_id aco.link_name then
              let t0 :=
                if M.knowsFrameTransform state aco.object.header.frame_id then
                  M.getFrameTransform state aco.object.header.frame_id
                else
                  match tf with
                  | some tf =>
                    if tf.canTransform aco.object.header.frame_id then
                      -- the frame can be transformed, so `getTransform` does not throw
                      (tf.getTransform aco.object.header.frame_id).getD M.identity
                    else M.identity
                  | none => M.identity
              let t := M.mul (M.inverse (M.getGlobalLinkTransform state lm)) t0
              poses.map (fun pose => M.mul t pose)
            else poses
          if shapes.isEmpty then
            state
          else
            let state := (state.clearAttachedBody M aco.object.id).2
            state.attachBody M aco.object.id shapes poses aco.touch_links aco.link_name
              aco.detach_posture
        | none => state
    else
      state
  else if aco.object.operation = CollisionObject.REMOVE then
    (state.clearAttachedBody M aco.object.id).2
  else
    state

/-- The function `_robotStateMsgToRobotStateHelper`. -/
def _robotStateMsgToRobotStateHelper (M : Methods τ) (tf : Option (Transforms τ))
    (robot_state : moveit_msgs.RobotState τ) (state : RobotState τ)
    (copy_attached_bodies : Bool) : Bool × RobotState τ :=
  let missing : Finset String := ∅
  let r1 := _jointStateToRobotState M robot_state.joint_state state (some missing)
  let result1 := r1.1
  let state := r1.2.1
  let missing := r1.2.2.getD missing
  let r2 := _multiDOFJointsToRobotState M robot_state.multi_dof_joint_state state tf
  let result2 := r2.1
  let state := r2.2
  let state :=
    if copy_attached_bodies then
      let state := if ¬ robot_state.is_diff then state.clearAttachedBodies M else state
      robot_state.attached_collision_objects.foldl
        (fun (state : RobotState τ) (aco : moveit_msgs.AttachedCollisionObject τ) =>
          _msgToAttachedBody M tf aco state)
        state
    else state
  if result1 ∧ result2 then
    let missing :=
      if missing ≠ ∅ then
        robot_state.multi_dof_joint_state.joint_names.foldl
          (fun (missing : Finset String) (joint_name : String) =>
            match state.getJointModel joint_name with
            | some jm =>
              let vnames := jm.getVariableNames
              vnames.foldl (fun (missing : Finset String) (v : String) => missing.erase v)
                missing
            | none => missing)
          missing
      else missing
    (decide (missing = ∅), state)
  else
    (false, state)

/-- The exposed function `jointStateToRobotState`. -/
def jointStateToRobotState (M : Methods τ) (joint_state : sensor_msgs.JointState τ)
    (state : RobotState τ) : Bool × RobotState τ :=
  let r := _jointStateToRobotState M joint_state state none
  let result := r.1
  let state := r.2.1.update M
  (result, state)

/-- The exposed function `robotStateMsgToRobotState(robot_state, state,
copy_attached_bodies)`. -/
def robotStateMsgToRobotState (M : Methods τ) (robot_state : moveit_msgs.RobotState τ)
    (state : RobotState τ) (copy_attached_bodies : Bool) : Bool × RobotState τ :=
  let r := _robotStateMsgToRobotStateHelper M none robot_state state copy_attached_bodies
  let result := r.1
  let state := r.2.update M
  (result, state)

/-- The exposed overload `robotStateMsgToRobotState(tf, robot_state, state,
copy_attached_bodies)`. -/
def robotStateMsgToRobotState_tf (M : Methods τ) (tf : Transforms τ)
    (robot_state : moveit_msgs.RobotState τ) (state : RobotState τ)
    (copy_attached_bodies : Bool) : Bool × RobotState τ :=
  let r := _robotStateMsgToRobotStateHelper M (some tf) robot_state state copy_attached_bodies
  let result := r.1
  let state := r.2.update M
  (result, state)

/-- The exposed function `robotStateToJointStateMsg`. -/
def robotStateToJointStateMsg (M : Methods τ) (state : RobotState τ)
    (_joint_state : sensor_msgs.JointState τ) : sensor_msgs.JointState τ :=
  let js := state.robot_model_.getSingleDOFJointModels
  let joint_state : sensor_msgs.JointState τ := {}
  let joint_state := js.foldl
    (fun (joint_state : sensor_msgs.JointState τ) (j : JointModel τ) =>
      let joint_state := { joint_state with name := joint_state.name ++ [j.getName] }
      let joint_state :=
        { joint_state with
          position :=
            joint_state.position ++ [M.getVariablePosition state j.getFirstVariableIndex] }
      if M.hasVelocities state then
        { joint_state with
          velocity :=
            joint_state.velocity ++ [M.getVariableVelocity state j.getFirstVariableIndex] }
      else joint_state)
    joint_state
  -- if inconsistent number of velocities are specified, discard them
  let joint_state :=
    if joint_state.velocity.length ≠ joint_state.position.length then
      { joint_state with velocity := [] }
    else joint_state
  { joint_state with
    header := { joint_state.header with frame_id := state.robot_model_.getModelFrame } }

/-- The call `v.resize(n)` on a vector of `AttachedCollisionObject`: the vector is cut to
`n` elements or filled up with default-constructed messages. -/
def resize (M : Methods τ) (v : List (moveit_msgs.AttachedCollisionObject τ)) (n : Nat) :
    List (moveit_msgs.AttachedCollisionObject τ) :=
  v.take n ++ List.replicate (n - v.length)
    { link_name := "", object := {}, touch_links := [], detach_posture := M.defaultPosture }

/-- The exposed function `robotStateToRobotStateMsg`. -/
def robotStateToRobotStateMsg (M : Methods τ) (state : RobotState τ)
    (robot_state : moveit_msgs.RobotState τ) (copy_attached_bodies : Bool) :
    moveit_msgs.RobotState τ :=
  let robot_state :=
    { robot_state with joint_state := robotStateToJointStateMsg M state robot_state.joint_state }
  let robot_state :=
    { robot_state with
      multi_dof_joint_state :=
        _robotStateToMultiDOFJointState M state robot_state.multi_dof_joint_state }
  if copy_attached_bodies then
    let attached_bodies := M.getAttachedBodies state
    let robot_state :=
      { robot_state with
        attached_collision_objects :=
          resize M robot_state.attached_collision_objects attached_bodies.length }
    { robot_state with
      attached_collision_objects :=
        List.zipWith (fun ab aco => _attachedBodyToMsg M ab aco) attached_bodies
          robot_state.attached_collision_objects }
  else robot_state

/-! ## A small instance, used to evaluate the conversions -/

/-- Value types of the instance: numbers and transforms are integers, the mutable part of a
state is its list of variable values. -/
@[reducible] def exampleTypes : Types where
  Double := Int
  Affine3d := Int
  TransformMsg := Int
  PoseMsg := Int
  SolidPrimitive := Unit
  Mesh := Unit
  Plane := Unit
  Shape := Unit
  Posture := Unit
  LinkModel := Unit
  StateData := List Int

/-- Methods of the instance: `setVariableValues` stores the positions of the message,
`update` and the attached-body functions leave the variable values alone. -/
def exampleMethods : Methods exampleTypes where
  identity := 0
  mul := fun a b => a + b
  inverse := fun a => -a
  transformMsgToEigen := fun t => t
  transformEigenToMsg := fun t => t
  poseMsgToEigen := fun t => t
  poseEigenToMsg := fun t => t
  constructShapeFromMsg := fun _ => some ()
  constructMsgFromShape := fun _ => some (shapes.ShapeMsg.mesh ())
  sameFrame := fun a b => a == b
  defaultPosture := ()
  setVariableValues := fun _ joint_state => joint_state.position
  setJointPositions := fun state _ _ => state.data
  clearAttachedBodies := fun state => state.data
  clearAttachedBody := fun state _ => (false, state.data)
  attachBody := fun state _ _ _ _ _ _ => state.data
  update := fun state => state.data
  knowsFrameTransform := fun _ _ => false
  getFrameTransform := fun _ _ => 0
  getGlobalLinkTransform := fun _ _ => 0
  dirtyJointTransform := fun _ _ => true
  getJointPositions := fun _ _ => []
  getJointTransform := fun _ _ => 0
  getVariablePosition := fun state i => state.data.getD i 0
  getVariableVelocity := fun _ _ => 0
  hasVelocities := fun _ => false
  getAttachedBodies := fun _ => []

/-- A robot model with no joints. -/
def exampleModel : RobotModel exampleTypes where
  getModelFrame := "base"
  hasJointModel := fun _ => false
  getJointModel := fun _ => none
  getLinkModel := fun _ => none
  getMissingVariableNames := fun _ => []
  getMultiDOFJointModels := []
  getSingleDOFJointModels := []

/-- A state of `exampleModel` holding the variable values 7 and 8. -/
def exampleState : RobotState exampleTypes where
  robot_model_ := exampleModel
  data := [7, 8]

/-- A `JointState` message with two names and one position. -/
def exampleJointState : sensor_msgs.JointState exampleTypes where
  name := ["a", "b"]
  position := [1]

/-! ## The robot model of a state is never replaced -/

theorem foldl_robot_model {β : Type} (f : RobotState τ → β → RobotState τ)
    (hf : ∀ s b, (f s b).robot_model_ = s.robot_model_) (l : List β) (s : RobotState τ) :
    (l.foldl f s).robot_model_ = s.robot_model_ := by
  induction l generalizing s with
  | nil => rfl
  | cons b l ih => rw [List.foldl_cons, ih, hf]

theorem foldl_snd_robot_model {β : Type} (f : Bool × RobotState τ → β → Bool × RobotState τ)
    (hf : ∀ a b, (f a b).2.robot_model_ = a.2.robot_model_) (l : List β)
    (a : Bool × RobotState τ) : (l.foldl f a).2.robot_model_ = a.2.robot_model_ := by
  induction l generalizing a with
  | nil => rfl
  | cons b l ih => rw [List.foldl_cons, ih, hf]

theorem _jointStateToRobotState_robot_model (M : Methods τ)
    (joint_state : sensor_msgs.JointState τ) (state : RobotState τ)
    (missing : Option (Finset String)) :
    (_jointStateToRobotState M joint_state state missing).2.1.robot_model_
      = state.robot_model_ := by
  unfold _jointStateToRobotState
  split <;> rfl

theorem _multiDOFJointsToRobotState_robot_model (M : Methods τ)
    (mjs : sensor_msgs.MultiDOFJointState τ) (state : RobotState τ)
    (tf : Option (Transforms τ)) :
    (_multiDOFJointsToRobotState M mjs state tf).2.robot_model_ = state.robot_model_ := by
  unfold _multiDOFJointsToRobotState
  dsimp only
  by_cases h : mjs.joint_names.length ≠ mjs.transforms.length
  · rw [if_pos h]
  · rw [if_neg h]
    dsimp only
    rw [foldl_snd_robot_model]
    intro a b
    dsimp only
    split_ifs <;> rfl

theorem _msgToAttachedBody_robot_model (M : Methods τ) (tf : Option (Transforms τ))
    (aco : moveit_msgs.AttachedCollisionObject τ) (state : RobotState τ) :
    (_msgToAttachedBody M tf aco state).robot_model_ = state.robot_model_ := by
  unfold _msgToAttachedBody
  dsimp only
  cases state.getLinkModel aco.link_name <;> dsimp only <;> split_ifs <;> rfl

/-! ## The set of missing variables -/

theorem mem_foldl_insert (l : List String) (s : Finset String) (v : String) :
    v ∈ l.foldl (fun missing x => insert x missing) s ↔ v ∈ s ∨ v ∈ l := by
  induction l generalizing s with
  | nil => simp
  | cons x l ih =>
    rw [List.foldl_cons, ih, Finset.mem_insert, List.mem_cons]
    tauto

theorem mem_foldl_erase (l : List String) (s : Finset String) (v : String) :
    v ∈ l.foldl (fun (missing : Finset String) x => missing.erase x) s ↔ v ∈ s ∧ v ∉ l := by
  induction l generalizing s with
  | nil => simp
  | cons x l ih =>
    rw [List.foldl_cons, ih, Finset.mem_erase, List.mem_cons]
    tauto

/-- After the loop over the multi-DOF joint names, the set holds the variables that belong
to none of the named joints the model knows. -/
theorem mem_foldl_erase_joints (getJointModel : String → Option (JointModel τ))
    (names : List String) (s : Finset String) (v : String) :
    v ∈ names.foldl
        (fun (missing : Finset String) (joint_name : String) =>
          match getJointModel joint_name with
          | some jm =>
            let vnames := jm.getVariableNames
            vnames.foldl (fun (missing : Finset String) (v : String) => missing.erase v)
              missing
          | none => missing)
        s ↔
      v ∈ s ∧ ¬ ∃ joint_name ∈ names, ∃ jm,
        getJointModel joint_name = some jm ∧ v ∈ jm.getVariableNames := by
  induction names generalizing s with
  | nil => simp
  | cons n names ih =>
    rw [List.foldl_cons, ih]
    cases hn : getJointModel n with
    | none => simp [hn]
    | some jm =>
      simp only [mem_foldl_erase, List.mem_cons, exists_eq_or_imp, hn, Option.some.injEq,
        exists_eq_left', not_or]
      tauto

theorem foldl_erase_joints_eq_empty_iff (getJointModel : String → Option (JointModel τ))
    (names : List String) (s : Finset String) :
    (if s ≠ ∅ then
        names.foldl
          (fun (missing : Finset String) (joint_name : String) =>
            match getJointModel joint_name with
            | some jm =>
              let vnames := jm.getVariableNames
              vnames.foldl (fun (missing : Finset String) (v : String) => missing.erase v)
                missing
            | none => missing)
          s
      else s) = ∅ ↔
      ∀ v ∈ s, ∃ joint_name ∈ names, ∃ jm,
        getJointModel joint_name = some jm ∧ v ∈ jm.getVariableNames := by
  by_cases hs : s = ∅
  · subst hs
    simp
  · rw [if_pos hs, Finset.eq_empty_iff_forall_not_mem]
    refine forall_congr' fun v => ?_
    rw [mem_foldl_erase_joints]
    constructor
    · intro h hv
      by_contra hc
      exact h ⟨hv, hc⟩
    · intro h hc
      exact hc.2 (h hc.1)

/-- The value returned by `_robotStateMsgToRobotStateHelper`. -/
theorem _robotStateMsgToRobotStateHelper_fst (M : Methods τ) (tf : Option (Transforms τ))
    (robot_state : moveit_msgs.RobotState τ) (state : RobotState τ)
    (copy_attached_bodies : Bool) :
    (_robotStateMsgToRobotStateHelper M tf robot_state state copy_attached_bodies).1 = true ↔
      robot_state.joint_state.name.length = robot_state.joint_state.position.length ∧
      (_multiDOFJointsToRobotState M robot_state.multi_dof_joint_state
        (_jointStateToRobotState M robot_state.joint_state state (some ∅)).2.1 tf).1 = true ∧
      ∀ v ∈ state.robot_model_.getMissingVariableNames robot_state.joint_state.name,
        ∃ joint_name ∈ robot_state.multi_dof_joint_state.joint_names, ∃ jm,
          state.getJointModel joint_name = some jm ∧ v ∈ jm.getVariableNames := by
  unfold _robotStateMsgToRobotStateHelper
  dsimp only
  generalize hs : (if copy_attached_bodies = true then _ else _ : RobotState τ) = s3
  have hm : s3.robot_model_ = state.robot_model_ := by
    subst hs
    split_ifs
    · rw [foldl_robot_model _ (fun s b => _msgToAttachedBody_robot_model M tf b s)]
      show (_multiDOFJointsToRobotState _ _ _ _).2.robot_model_ = _
      rw [_multiDOFJointsToRobotState_robot_model, _jointStateToRobotState_robot_model]
    · rw [foldl_robot_model _ (fun s b => _msgToAttachedBody_robot_model M tf b s)]
      show (_multiDOFJointsToRobotState _ _ _ _).2.robot_model_ = _
      rw [_multiDOFJointsToRobotState_robot_model, _jointStateToRobotState_robot_model]
    · rw [_multiDOFJointsToRobotState_robot_model, _jointStateToRobotState_robot_model]
  have hj : ∀ n, s3.getJointModel n = state.getJointModel n := fun n => by
    unfold RobotState.getJointModel
    rw [hm]
  simp only [hj]
  clear hs hm hj
  by_cases hlen : robot_state.joint_state.name.length = robot_state.joint_state.position.length
  · have h1 : _jointStateToRobotState M robot_state.joint_state state (some ∅)
        = (true, state.setVariableValues M robot_state.joint_state,
            some ((state.robot_model_.getMissingVariableNames
              robot_state.joint_state.name).foldl (fun missing v => insert v missing) ∅)) := by
      unfold _jointStateToRobotState
      rw [if_neg (not_not.mpr hlen)]
      rfl
    rw [h1]
    dsimp only [Option.getD]
    by_cases h2 : (_multiDOFJointsToRobotState M robot_state.multi_dof_joint_state
        (state.setVariableValues M robot_state.joint_state) tf).1 = true
    · rw [if_pos ⟨rfl, h2⟩]
      dsimp only
      rw [decide_eq_true_iff, foldl_erase_joints_eq_empty_iff state.getJointModel]
      simp only [mem_foldl_insert, Finset.not_mem_empty, false_or, hlen, h2, true_and]
    · rw [if_neg (fun h => h2 h.2)]
      simp only [h2, false_and, and_false, Bool.false_eq_true]
  · have h1 : _jointStateToRobotState M robot_state.joint_state state (some ∅)
        = (false, state, some ∅) := by
      unfold _jointStateToRobotState
      rw [if_pos hlen]
    rw [h1]
    dsimp only
    rw [if_neg (fun h => Bool.false_ne_true h.1)]
    simp only [hlen, false_and, Bool.false_eq_true]

/-! ## Loops that fill a vector with `push_back` -/

theorem foldl_push_back {α β γ : Type} (f : α → β → α) (p : α → List γ) (g : β → γ)
    (h : ∀ a b, p (f a b) = p a ++ [g b]) (l : List β) (a : α) :
    p (l.foldl f a) = p a ++ l.map g := by
  induction l generalizing a with
  | nil => simp
  | cons b l ih => rw [List.foldl_cons, ih, h, List.map_cons, List.append_assoc]; rfl

theorem foldl_unchanged {α β γ : Type} (f : α → β → α) (p : α → γ)
    (h : ∀ a b, p (f a b) = p a) (l : List β) (a : α) : p (l.foldl f a) = p a := by
  induction l generalizing a with
  | nil => rfl
  | cons b l ih => rw [List.foldl_cons, ih, h]

/-- The message `robotStateToRobotStateMsg` leaves in `multi_dof_joint_state`. -/
theorem robotStateToRobotStateMsg_multi_dof_joint_state (M : Methods τ)
    (state : RobotState τ) (robot_state : moveit_msgs.RobotState τ)
    (copy_attached_bodies : Bool) :
    (robotStateToRobotStateMsg M state robot_state copy_attached_bodies).multi_dof_joint_state
      = _robotStateToMultiDOFJointState M state robot_state.multi_dof_joint_state := by
  unfold robotStateToRobotStateMsg
  cases copy_attached_bodies <;> rfl

/-! ## The exposed conversions -/

/-- C1: each overload of `robotStateMsgToRobotState` returns true if and only if
(1) `joint_state.name` and `joint_state.position` have the same length, (2) the call of
`_multiDOFJointsToRobotState` it makes returns true, and (3) every variable the robot model
reports as missing from `joint_state.name` is a variable of a joint named in
`multi_dof_joint_state.joint_names`; the returned value is the same for every list of
attached collision objects and every value of `copy_attached_bodies`. -/
theorem robotStateMsgToRobotState_true_iff (M : Methods τ)
    (robot_state : moveit_msgs.RobotState τ) (state : RobotState τ)
    (copy_attached_bodies : Bool) :
    ((robotStateMsgToRobotState M robot_state state copy_attached_bodies).1 = true ↔
      robot_state.joint_state.name.length = robot_state.joint_state.position.length ∧
      (_multiDOFJointsToRobotState M robot_state.multi_dof_joint_state
        (_jointStateToRobotState M robot_state.joint_state state (some ∅)).2.1 none).1 = true ∧
      ∀ v ∈ state.robot_model_.getMissingVariableNames robot_state.joint_state.name,
        ∃ joint_name ∈ robot_state.multi_dof_joint_state.joint_names, ∃ jm,
          state.getJointModel joint_name = some jm ∧ v ∈ jm.getVariableNames) ∧
    (∀ tf : Transforms τ,
      ((robotStateMsgToRobotState_tf M tf robot_state state copy_attached_bodies).1 = true ↔
        robot_state.joint_state.name.length = robot_state.joint_state.position.length ∧
        (_multiDOFJointsToRobotState M robot_state.multi_dof_joint_state
          (_jointStateToRobotState M robot_state.joint_state state (some ∅)).2.1
          (some tf)).1 = true ∧
        ∀ v ∈ state.robot_model_.getMissingVariableNames robot_state.joint_state.name,
          ∃ joint_name ∈ robot_state.multi_dof_joint_state.joint_names, ∃ jm,
            state.getJointModel joint_name = some jm ∧ v ∈ jm.getVariableNames)) ∧
    (∀ (objects : List (moveit_msgs.AttachedCollisionObject τ)) (flag : Bool),
      (robotStateMsgToRobotState M
          { robot_state with attached_collision_objects := objects } state flag).1
        = (robotStateMsgToRobotState M robot_state state copy_attached_bodies).1 ∧
      ∀ tf : Transforms τ,
        (robotStateMsgToRobotState_tf M tf
            { robot_state with attached_collision_objects := objects } state flag).1
          = (robotStateMsgToRobotState_tf M tf robot_state state copy_attached_bodies).1) := by
  refine ⟨?_, ?_, ?_⟩
  · exact _robotStateMsgToRobotStateHelper_fst M none robot_state state copy_attached_bodies
  · intro tf
    exact _robotStateMsgToRobotStateHelper_fst M (some tf) robot_state state
      copy_attached_bodies
  · intro objects flag
    refine ⟨?_, fun tf => ?_⟩
    · rw [Bool.eq_iff_iff]
      exact (_robotStateMsgToRobotStateHelper_fst M none _ state flag).trans
        (_robotStateMsgToRobotStateHelper_fst M none robot_state state
          copy_attached_bodies).symm
    · rw [Bool.eq_iff_iff]
      exact (_robotStateMsgToRobotStateHelper_fst M (some tf) _ state flag).trans
        (_robotStateMsgToRobotStateHelper_fst M (some tf) robot_state state
          copy_attached_bodies).symm

/-- C2: `jointStateToRobotState` returns true if and only if the message has as many names
as positions. When the numbers differ it returns false and the state it leaves is the given
state after `update()` alone, whatever `setVariableValues` does: `setVariableValues` is not
called, and no variable value is written when `update()` writes none. -/
theorem jointStateToRobotState_true_iff (M : Methods τ)
    (joint_state : sensor_msgs.JointState τ) (state : RobotState τ) :
    ((jointStateToRobotState M joint_state state).1 = true ↔
      joint_state.name.length = joint_state.position.length) ∧
    (joint_state.name.length ≠ joint_state.position.length →
      (∀ f : RobotState τ → sensor_msgs.JointState τ → τ.StateData,
        jointStateToRobotState { M with setVariableValues := f } joint_state state
          = (false, state.update M)) ∧
      ((∀ (s : RobotState τ) (i : Nat),
          M.getVariablePosition (s.update M) i = M.getVariablePosition s i) →
        ∀ i : Nat,
          M.getVariablePosition (jointStateToRobotState M joint_state state).2 i
            = M.getVariablePosition state i)) := by
  unfold jointStateToRobotState _jointStateToRobotState
  by_cases h : joint_state.name.length = joint_state.position.length
  · simp only [h, ne_eq, not_true_eq_false, if_false, true_iff, false_imp_iff, and_self]
  · simp only [h, ne_eq, not_false_eq_true, if_true, false_iff, Bool.false_eq_true,
      true_imp_iff, true_and]
    refine ⟨fun f => rfl, fun hu i => hu state i⟩

/-- C2, evaluated: a message with two names and one position is rejected, and the variable
values 7 and 8 of the state are still in place. -/
theorem jointStateToRobotState_true_iff_witness :
    exampleJointState.name.length ≠ exampleJointState.position.length ∧
    (jointStateToRobotState exampleMethods exampleJointState exampleState).1 = false ∧
    (jointStateToRobotState exampleMethods exampleJointState exampleState).2.data = [7, 8] ∧
    ∀ i : Nat,
      exampleMethods.getVariablePosition
          (jointStateToRobotState exampleMethods exampleJointState exampleState).2 i
        = exampleMethods.getVariablePosition exampleState i :=
  ⟨by decide, by decide, by decide,
    ((jointStateToRobotState_true_iff exampleMethods exampleJointState exampleState).2
      (by decide)).2 (fun _ _ => rfl)⟩

/-- C3: whatever the output message held before, the `multi_dof_joint_state` written by
`robotStateToRobotStateMsg` has one joint name and one transform per multi-DOF joint of the
model, in the model's order, and the model frame as `header.frame_id`: entry `i` is the
name of joint `i` and the message form of the transform that `computeTransform` builds from
the identity and the state's positions of joint `i` when the state reports the joint
transform dirty, and of the state's cached joint transform otherwise. -/
theorem robotStateToRobotStateMsg_multiDOF (M : Methods τ) (state : RobotState τ)
    (robot_state : moveit_msgs.RobotState τ) (copy_attached_bodies : Bool) :
    (robotStateToRobotStateMsg M state robot_state
        copy_attached_bodies).multi_dof_joint_state.joint_names
      = state.robot_model_.getMultiDOFJointModels.map (fun j => j.getName) ∧
    (robotStateToRobotStateMsg M state robot_state
        copy_attached_bodies).multi_dof_joint_state.transforms
      = state.robot_model_.getMultiDOFJointModels.map (fun j =>
          M.transformEigenToMsg
            (if M.dirtyJointTransform state j then
              j.computeTransform (M.getJointPositions state j) M.identity
            else M.getJointTransform state j)) ∧
    (robotStateToRobotStateMsg M state robot_state
        copy_attached_bodies).multi_dof_joint_state.joint_names.length
      = state.robot_model_.getMultiDOFJointModels.length ∧
    (robotStateToRobotStateMsg M state robot_state
        copy_attached_bodies).multi_dof_joint_state.transforms.length
      = state.robot_model_.getMultiDOFJointModels.length ∧
    (robotStateToRobotStateMsg M state robot_state
        copy_attached_bodies).multi_dof_joint_state.header.frame_id
      = state.robot_model_.getModelFrame := by
  rw [robotStateToRobotStateMsg_multi_dof_joint_state]
  have hn : (_robotStateToMultiDOFJointState M state
      robot_state.multi_dof_joint_state).joint_names
      = state.robot_model_.getMultiDOFJointModels.map (fun j => j.getName) := by
    unfold _robotStateToMultiDOFJointState
    dsimp only
    exact foldl_push_back _ (fun m : sensor_msgs.MultiDOFJointState τ => m.joint_names)
      (fun j : JointModel τ => j.getName) (fun _ _ => rfl) _ _
  have ht : (_robotStateToMultiDOFJointState M state
      robot_state.multi_dof_joint_state).transforms
      = state.robot_model_.getMultiDOFJointModels.map (fun j =>
          M.transformEigenToMsg
            (if M.dirtyJointTransform state j then
              j.computeTransform (M.getJointPositions state j) M.identity
            else M.getJointTransform state j)) := by
    unfold _robotStateToMultiDOFJointState
    dsimp only
    exact foldl_push_back _ (fun m : sensor_msgs.MultiDOFJointState τ => m.transforms)
      (fun j : JointModel τ => M.transformEigenToMsg
        (if M.dirtyJointTransform state j then
          j.computeTransform (M.getJointPositions state j) M.identity
        else M.getJointTransform state j))
      (fun a b => by dsimp only; split_ifs <;> rfl) _ _
  refine ⟨hn, ht, ?_, ?_, rfl⟩
  · rw [hn, List.length_map]
  · rw [ht, List.length_map]

/-- C4: whatever the output message held before, `robotStateToJointStateMsg` produces a
message whose `name` and `position` have one entry per single-DOF joint of the model, in the
model's order (the joint's name, and the state's position at the joint's first variable
index); `velocity` has one entry per joint when the state has velocities and is empty
otherwise, so it is as long as `position` or empty; and `jointStateToRobotState` returns
true on the message. -/
theorem robotStateToJointStateMsg_lists (M : Methods τ) (state : RobotState τ)
    (joint_state : sensor_msgs.JointState τ) :
    (robotStateToJointStateMsg M state joint_state).name
      = state.robot_model_.getSingleDOFJointModels.map (fun j => j.getName) ∧
    (robotStateToJointStateMsg M state joint_state).position
      = state.robot_model_.getSingleDOFJointModels.map
          (fun j => M.getVariablePosition state j.getFirstVariableIndex) ∧
    (robotStateToJointStateMsg M state joint_state).velocity
      = (if M.hasVelocities state then
          state.robot_model_.getSingleDOFJointModels.map
            (fun j => M.getVariableVelocity state j.getFirstVariableIndex)
        else []) ∧
    (robotStateToJointStateMsg M state joint_state).velocity.length
      = (if M.hasVelocities state then
          (robotStateToJointStateMsg M state joint_state).position.length
        else 0) ∧
    (robotStateToJointStateMsg M state joint_state).name.length
      = (robotStateToJointStateMsg M state joint_state).position.length ∧
    ∀ (M2 : Methods τ) (state2 : RobotState τ),
      (jointStateToRobotState M2 (robotStateToJointStateMsg M state joint_state) state2).1
        = true := by
  unfold robotStateToJointStateMsg
  dsimp only
  generalize hloop : List.foldl _ ({} : sensor_msgs.JointState τ)
    state.robot_model_.getSingleDOFJointModels = loop
  have hname : loop.name
      = state.robot_model_.getSingleDOFJointModels.map (fun j => j.getName) := by
    rw [← hloop]
    exact foldl_push_back _ (fun m : sensor_msgs.JointState τ => m.name)
      (fun j : JointModel τ => j.getName)
      (fun a b => by dsimp only; split_ifs <;> rfl) _ _
  have hpos : loop.position = state.robot_model_.getSingleDOFJointModels.map
      (fun j => M.getVariablePosition state j.getFirstVariableIndex) := by
    rw [← hloop]
    exact foldl_push_back _ (fun m : sensor_msgs.JointState τ => m.position)
      (fun j : JointModel τ => M.getVariablePosition state j.getFirstVariableIndex)
      (fun a b => by dsimp only; split_ifs <;> rfl) _ _
  have hvel : loop.velocity = (if M.hasVelocities state then
      state.robot_model_.getSingleDOFJointModels.map
        (fun j => M.getVariableVelocity state j.getFirstVariableIndex)
      else []) := by
    rw [← hloop]
    by_cases hv : M.hasVelocities state = true
    · rw [if_pos hv]
      exact foldl_push_back _ (fun m : sensor_msgs.JointState τ => m.velocity)
        (fun j : JointModel τ => M.getVariableVelocity state j.getFirstVariableIndex)
        (fun a b => by dsimp only; rw [if_pos hv]) _ _
    · rw [if_neg hv]
      exact foldl_unchanged _ (fun m : sensor_msgs.JointState τ => m.velocity)
        (fun a b => by dsimp only; rw [if_neg hv]) _ _
  clear hloop
  have hlen : loop.name.length = loop.position.length := by
    rw [hname, hpos, List.length_map, List.length_map]
  by_cases hv : M.hasVelocities state = true
  · rw [if_pos hv] at hvel
    have hvl : loop.velocity.length = loop.position.length := by
      rw [hvel, hpos, List.length_map, List.length_map]
    rw [if_neg (not_not.mpr hvl), if_pos hv, if_pos hv]
    refine ⟨hname, hpos, hvel, hvl, hlen, fun M2 state2 => ?_⟩
    unfold jointStateToRobotState _jointStateToRobotState
    dsimp only
    rw [if_neg (not_not.mpr hlen)]
  · rw [if_neg hv] at hvel
    rw [if_neg hv, if_neg hv]
    have hsame : (if loop.velocity.length ≠ loop.position.length then
        { loop with velocity := [] } else loop) = loop := by
      split_ifs
      · rw [← hvel]
      · rfl
    rw [hsame]
    refine ⟨hname, hpos, hvel, by rw [hvel]; rfl, hlen, fun M2 state2 => ?_⟩
    unfold jointStateToRobotState _jointStateToRobotState
    dsimp only
    rw [if_neg (not_not.mpr hlen)]

end moveit.core

namespace robot_model.PlanarJointModel

/-- The remainder computed by `fmod x y` is smaller than `y` in absolute value. -/
theorem fmod_bounds (x y : ℚ) (hy : 0 < y) : -y < fmod x y ∧ fmod x y < y := by
  unfold fmod
  have hx : y * (x / y) = x := by field_simp
  split_ifs with h
  · have h1 := Int.floor_le (x / y)
    have h2 := Int.lt_floor_add_one (x / y)
    constructor <;> nlinarith
  · have h1 := Int.le_ceil (x / y)
    have h2 := Int.ceil_lt_add_one (x / y)
    constructor <;> nlinarith

/-- The yaw that `normalizeRotation` stores when it changes the value is in `[-pi, pi]`. -/
theorem reduced_yaw_bounds (pi v : ℚ) (hpi : 0 < pi) :
    -pi ≤ (if fmod v (2 * pi) < -pi then fmod v (2 * pi) + 2 * pi
        else if fmod v (2 * pi) > pi then fmod v (2 * pi) - 2 * pi
        else fmod v (2 * pi)) ∧
    (if fmod v (2 * pi) < -pi then fmod v (2 * pi) + 2 * pi
        else if fmod v (2 * pi) > pi then fmod v (2 * pi) - 2 * pi
        else fmod v (2 * pi)) ≤ pi := by
  obtain ⟨h1, h2⟩ := fmod_bounds v (2 * pi) (by linarith)
  split_ifs <;> constructor <;> linarith

/-- C6: for a value vector `(x, y, yaw)` of the planar joint, `normalizeRotation` leaves
the yaw in `[-π, π]`, leaves `x` and `y` (and the length of the vector) unchanged, returns
true if and only if it changed the yaw, and is idempotent: applied to its own result it
returns false and changes nothing. -/
theorem normalizeRotation_spec (pi : ℚ) (hpi : 0 < pi) (values : List ℚ)
    (hlen : values.length = 3) :
    (-pi ≤ (normalizeRotation pi values).2.getD 2 0 ∧
      (normalizeRotation pi values).2.getD 2 0 ≤ pi) ∧
    (normalizeRotation pi values).2.length = 3 ∧
    (normalizeRotation pi values).2.getD 0 0 = values.getD 0 0 ∧
    (normalizeRotation pi values).2.getD 1 0 = values.getD 1 0 ∧
    ((normalizeRotation pi values).1 = true ↔
      (normalizeRotation pi values).2.getD 2 0 ≠ values.getD 2 0) ∧
    normalizeRotation pi (normalizeRotation pi values).2
      = (false, (normalizeRotation pi values).2) := by
  match values, hlen with
  | [x, y, v], _ =>
    by_cases hv : -pi ≤ v ∧ v ≤ pi
    · have h : normalizeRotation pi [x, y, v] = (false, [x, y, v]) := by
        unfold normalizeRotation
        simp only [List.getD_cons_succ, List.getD_cons_zero, if_pos hv]
      rw [h]
      dsimp only
      rw [h]
      simp only [List.getD_cons_succ, List.getD_cons_zero, List.length_cons, List.length_nil,
        ne_eq, not_true_eq_false, Bool.false_eq_true, and_true, true_and]
      exact hv
    · have hb := reduced_yaw_bounds pi v hpi
      generalize hw : (if fmod v (2 * pi) < -pi then fmod v (2 * pi) + 2 * pi
        else if fmod v (2 * pi) > pi then fmod v (2 * pi) - 2 * pi
        else fmod v (2 * pi)) = w at hb
      have h : normalizeRotation pi [x, y, v] = (true, [x, y, w]) := by
        unfold normalizeRotation
        simp only [List.getD_cons_succ, List.getD_cons_zero, if_neg hv, List.set_cons_succ,
          List.set_cons_zero, hw]
      have h2 : normalizeRotation pi [x, y, w] = (false, [x, y, w]) := by
        unfold normalizeRotation
        simp only [List.getD_cons_succ, List.getD_cons_zero, if_pos hb]
      rw [h]
      dsimp only
      rw [h2]
      simp only [List.getD_cons_succ, List.getD_cons_zero, List.length_cons, List.length_nil,
        ne_eq, and_true, true_and, true_iff]
      refine ⟨hb, ?_⟩
      rintro rfl
      exact hv hb

/-- C6, evaluated with `pi = 3`: the yaw 10 is reduced to `-2`, and the yaw 2 is kept. -/
theorem normalizeRotation_spec_witness :
    normalizeRotation (3 : ℚ) [1, 2, 10] = (true, [1, 2, -2]) ∧
    normalizeRotation (3 : ℚ) [1, 2, -2] = (false, [1, 2, -2]) ∧
    ((-3 : ℚ) ≤ (normalizeRotation (3 : ℚ) [1, 2, 10]).2.getD 2 0 ∧
      (normalizeRotation (3 : ℚ) [1, 2, 10]).2.getD 2 0 ≤ 3) :=
  ⟨by norm_num [normalizeRotation, fmod], by norm_num [normalizeRotation, fmod],
    (normalizeRotation_spec 3 (by norm_num) [1, 2, 10] rfl).1⟩

/-! ## The transform codec of the planar joint -/

/-- The values read back from the transform built for `(x, y, yaw)`. -/
theorem roundTrip_yaw_eq_arg (x y yaw : ℝ) :
    computeJointStateValues (computeTransform [x, y, yaw])
      = [x, y, Complex.arg ⟨Real.cos yaw, Real.sin yaw⟩] := by
  simp [computeJointStateValues, computeTransform]

theorem arg_cos_sin (yaw : ℝ) (h1 : -Real.pi < yaw) (h2 : yaw ≤ Real.pi) :
    Complex.arg ⟨Real.cos yaw, Real.sin yaw⟩ = yaw := by
  have h : (⟨Real.cos yaw, Real.sin yaw⟩ : ℂ)
      = Complex.cos yaw + Complex.sin yaw * Complex.I := by
    apply Complex.ext <;> simp [← Complex.ofReal_cos, ← Complex.ofReal_sin]
  rw [h]
  exact Complex.arg_cos_add_sin_mul_I ⟨h1, h2⟩

theorem arg_cos_sin_neg_pi :
    Complex.arg ⟨Real.cos (-Real.pi), Real.sin (-Real.pi)⟩ = Real.pi := by
  have h : (⟨Real.cos (-Real.pi), Real.sin (-Real.pi)⟩ : ℂ) = -1 := by
    apply Complex.ext <;> simp
  rw [h, Complex.arg_neg_one]

/-- The yaw values `-π` and `π` are built into one and the same transform. -/
theorem computeTransform_neg_pi (x y : ℝ) :
    computeTransform [x, y, -Real.pi] = computeTransform [x, y, Real.pi] := by
  simp [computeTransform]

/-- A yaw in `[-pi, pi]` is left alone by `normalizeRotation`. -/
theorem normalizeRotation_of_mem {K : Type} [LinearOrderedField K] [FloorRing K] (pi : K)
    (values : List K) (h : -pi ≤ values.getD 2 0 ∧ values.getD 2 0 ≤ pi) :
    normalizeRotation pi values = (false, values) := by
  unfold normalizeRotation
  simp only [if_pos h]

/-- C5, as stated, fails at `v = (0, 0, -π)`: the yaw `-π` is in `[-π, π]`, the values read
back from the transform built for `v` are `(0, 0, π)`, and they differ from `v` after
normalization too, which leaves both `π` and `-π` in place. No way of reading the yaw back
can avoid this for both ends of the interval, since `(0, 0, -π)` and `(0, 0, π)` are built
into the same transform. -/
theorem roundTrip_fails_at_neg_pi :
    (-Real.pi ≤ -Real.pi ∧ -Real.pi ≤ Real.pi) ∧
    computeJointStateValues (computeTransform [0, 0, -Real.pi]) = [0, 0, Real.pi] ∧
    (normalizeRotation Real.pi
        (computeJointStateValues (computeTransform [0, 0, -Real.pi]))).2
      ≠ (normalizeRotation Real.pi [0, 0, -Real.pi]).2 ∧
    computeTransform [0, 0, -Real.pi] = computeTransform [0, 0, Real.pi] := by
  have hpi := Real.pi_pos
  have hdec : computeJointStateValues (computeTransform [0, 0, -Real.pi])
      = [0, 0, Real.pi] := by
    rw [roundTrip_yaw_eq_arg, arg_cos_sin_neg_pi]
  refine ⟨⟨le_refl _, by linarith⟩, hdec, ?_, computeTransform_neg_pi 0 0⟩
  rw [hdec, normalizeRotation_of_mem, normalizeRotation_of_mem]
  · intro h
    simp only [List.cons.injEq, and_true, true_and] at h
    linarith
  · simp only [List.getD_cons_succ, List.getD_cons_zero]
    constructor <;> linarith
  · simp only [List.getD_cons_succ, List.getD_cons_zero]
    constructor <;> linarith

/-- C5, amended: for every configuration `v = (x, y, yaw)` with yaw in `[-π, π]`,
`computeJointStateValues` applied to the transform built by `computeTransform(v)` returns
`x` and `y` exactly and the yaw `π` when `yaw = -π`, the yaw itself otherwise; so for yaw in
`(-π, π]` it returns `v` exactly, and the two vectors are equal after normalization as
well. -/
theorem computeJointStateValues_computeTransform (x y yaw : ℝ) (h1 : -Real.pi ≤ yaw)
    (h2 : yaw ≤ Real.pi) :
    computeJointStateValues (computeTransform [x, y, yaw])
        = [x, y, if yaw = -Real.pi then Real.pi else yaw] ∧
    (-Real.pi < yaw →
      computeJointStateValues (computeTransform [x, y, yaw]) = [x, y, yaw] ∧
      (normalizeRotation Real.pi
          (computeJointStateValues (computeTransform [x, y, yaw]))).2
        = (normalizeRotation Real.pi [x, y, yaw]).2) := by
  rw [roundTrip_yaw_eq_arg]
  constructor
  · by_cases h : yaw = -Real.pi
    · rw [if_pos h, h, arg_cos_sin_neg_pi]
    · rw [if_neg h, arg_cos_sin yaw (lt_of_le_of_ne h1 (Ne.symm h)) h2]
  · intro h
    rw [arg_cos_sin yaw h h2]
    exact ⟨rfl, rfl⟩

/-- C5, amended, at the two configurations the spec names: `(1.5, -2.0, 2.9)` and
`(0, 0, -3.1)` are read back exactly. -/
theorem computeJointStateValues_computeTransform_witness :
    computeJointStateValues (computeTransform [1.5, -2.0, 2.9]) = [1.5, -2.0, 2.9] ∧
    computeJointStateValues (computeTransform [0, 0, -3.1]) = [0, 0, -3.1] :=
  ⟨((computeJointStateValues_computeTransform 1.5 (-2.0) 2.9
      (by linarith [Real.pi_gt_three]) (by linarith [Real.pi_gt_three])).2
      (by linarith [Real.pi_gt_three])).1,
   ((computeJointStateValues_computeTransform 0 0 (-3.1)
      (by linarith [Real.pi_gt_d2]) (by linarith [Real.pi_gt_d2])).2
      (by linarith [Real.pi_gt_d2])).1⟩

/-- C7: after `setAngularDistanceWeight(w)` the call `getAngularDistanceWeight()` returns
`w`; `getAngularDistanceWeight` returns the stored weight, and `setAngularDistanceWeight`
leaves the rest of the model as it was. -/
theorem getAngularDistanceWeight_setAngularDistanceWeight {Base D : Type}
    (model : PlanarJointModel Base D) (w : D) :
    (model.setAngularDistanceWeight w).getAngularDistanceWeight = w ∧
    model.getAngularDistanceWeight = model.angular_distance_weight_ ∧
    (model.setAngularDistanceWeight w).toJointModel = model.toJointModel :=
  ⟨rfl, rfl, rfl⟩

end robot_model.PlanarJointModel
